import Mathlib

/-!
Shallow embedding of `src/delegates/motordriveconsumption.py` (the
MotorDriveConsumption delegate): a continuity filter on GPS fixes, a
time-weighted power EMA, and a fixed-size circular window of
(distance, energy) segments, together with the update handler and the
output computation.

Python floats are modelled as exact rationals (ℚ).  The transcendental
functions the source uses (`exp` in the power smoother, the
trigonometric haversine/bearing formulas) are not expressible in exact
rational arithmetic, so the smoother is parametrised by an `exp` oracle
and the filter by a geometry oracle providing the computed distance and
bearing; every property below constrains only what the code does with
the oracle's outputs, matching the claims.
-/

namespace MotorDriveConsumption

/-- `MINIMUM_SPEED_MS = 0.3` (m/s): movements slower than this are ignored. -/
def MINIMUM_SPEED_MS : ℚ := 3 / 10

/-- `MAXIMUM_SPEED_MS = 20.0` (m/s): movements faster than this are capped. -/
def MAXIMUM_SPEED_MS : ℚ := 20

/-- `BEARING_CHECK_MINIMUM_DISTANCE_M = 1` (m). -/
def BEARING_CHECK_MINIMUM_DISTANCE_M : ℚ := 1

/-- `BEARING_CHECK_THRESHOLD_DEGREES = 45.0`. -/
def BEARING_CHECK_THRESHOLD_DEGREES : ℚ := 45

/-- `POWER_EMA_MS = 3000` (ms). -/
def POWER_EMA_MS : ℚ := 3000

/-- `WINDOW_SEGMENT_COUNT = 50`. -/
def WINDOW_SEGMENT_COUNT : ℕ := 50

/-- `WINDOW_SEGMENT_SIZE_M = 37` (m): 50 segments of 37 m = 1.85 km. -/
def WINDOW_SEGMENT_SIZE_M : ℚ := 37

instance : NeZero WINDOW_SEGMENT_COUNT := ⟨by norm_num [WINDOW_SEGMENT_COUNT]⟩

/-- The circular consumption window.  In the source these are four fields of
the delegate object: `consumption_window` is a list of 50 `[distance, energy]`
pairs (here a `Fin 50`-indexed family of pairs, `.1` the distance and `.2`
the energy), `consumption_window_index` the write index (the Python
`(i + 1) % WINDOW_SEGMENT_COUNT` is `Fin` addition), and the two running
totals. -/
structure Window where
  consumption_window : Fin WINDOW_SEGMENT_COUNT → ℚ × ℚ
  consumption_window_index : Fin WINDOW_SEGMENT_COUNT
  consumption_window_total_distance : ℚ
  consumption_window_total_energy : ℚ
deriving DecidableEq

/-- The window state built by `__init__`: 50 `[0, 0]` segments, index 0,
zero totals. -/
def initialWindow : Window where
  consumption_window := fun _ => (0, 0)
  consumption_window_index := 0
  consumption_window_total_distance := 0
  consumption_window_total_energy := 0

/-- The local loop variables of `_accumulate`'s `while` loop (`distance`,
`energy`) together with the window fields the loop mutates. -/
structure LoopState where
  distance : ℚ
  energy : ℚ
  window : Window
deriving DecidableEq

/-- One iteration of the `while distance > 0` loop body of `_accumulate`
(lines 109–144 of the source); the identity when the loop guard fails.
The `if` branch puts the whole remaining distance/energy into the current
write segment; the `else` branch fills the segment exactly to capacity with
a proportional energy share, advances the write index, subtracts the
segment now at the write index from the running totals and zeroes it. -/
def accumulateStep (s : LoopState) : LoopState :=
  if 0 < s.distance then
    let w := s.window
    let seg := w.consumption_window w.consumption_window_index
    let segment_remaining_distance := WINDOW_SEGMENT_SIZE_M - seg.1
    if s.distance < segment_remaining_distance then
      { distance := 0
        energy := 0
        window :=
          { w with
            consumption_window :=
              Function.update w.consumption_window w.consumption_window_index
                (seg.1 + s.distance, seg.2 + s.energy) } }
    else
      let ratio := segment_remaining_distance / s.distance
      let filled :=
        Function.update w.consumption_window w.consumption_window_index
          (seg.1 + segment_remaining_distance, seg.2 + s.energy * ratio)
      let newIndex := w.consumption_window_index + 1
      let evicted := filled newIndex
      { distance := s.distance - segment_remaining_distance
        energy := s.energy - s.energy * ratio
        window :=
          { consumption_window := Function.update filled newIndex (0, 0)
            consumption_window_index := newIndex
            consumption_window_total_distance :=
              w.consumption_window_total_distance - evicted.1
            consumption_window_total_energy :=
              w.consumption_window_total_energy - evicted.2 } }
  else s

/-- Fuel sufficient for the `while` loop of `_accumulate` on any window
satisfying the segment-bounds invariant: the first iteration either finishes
or leaves an empty write segment, and every later boundary crossing consumes
a full 37 m segment. -/
def accumulateFuel (distance : ℚ) : ℕ :=
  (⌈distance / WINDOW_SEGMENT_SIZE_M⌉).toNat + 1

/-- `_accumulate(distance, energy)`: add the whole input to the running
totals, then run the splitting/eviction loop.  The loop is expressed as
`accumulateFuel` iterations of `accumulateStep`; `accumulateStep` is the
identity once the remaining distance is 0, and the termination theorem
below shows the remaining distance reaches 0 within the fuel, so this is
the exact `while` loop of the source. -/
def accumulate (w : Window) (distance energy : ℚ) : Window :=
  let w0 :=
    { w with
      consumption_window_total_distance :=
        w.consumption_window_total_distance + distance
      consumption_window_total_energy :=
        w.consumption_window_total_energy + energy }
  (accumulateStep^[accumulateFuel distance]
    { distance := distance, energy := energy, window := w0 }).window

/-- `update_values`: publish `total_energy / (total_distance / 1000)` (Wh/km)
when `total_distance > 0`, otherwise publish nothing (lines 207–213). -/
def update_values (w : Window) : Option ℚ :=
  if 0 < w.consumption_window_total_distance then
    some (w.consumption_window_total_energy /
      (w.consumption_window_total_distance / 1000))
  else none

/-- Segment-bounds invariant: every segment distance lies in `[0, 37]` and
the segment at the write index is strictly below capacity (so the loop's
`segment_remaining_distance` is positive). -/
def WindowInv (w : Window) : Prop :=
  (∀ i, 0 ≤ (w.consumption_window i).1 ∧
    (w.consumption_window i).1 ≤ WINDOW_SEGMENT_SIZE_M) ∧
  (w.consumption_window w.consumption_window_index).1 < WINDOW_SEGMENT_SIZE_M

/-- Sum of the segment distances over the whole ring. -/
def segSumD (w : Window) : ℚ := ∑ i, (w.consumption_window i).1

/-- Sum of the segment energies over the whole ring. -/
def segSumE (w : Window) : ℚ := ∑ i, (w.consumption_window i).2

/-- Totals-equal-sums invariant of the window (§3 of the spec). -/
def TotalsInv (w : Window) : Prop :=
  w.consumption_window_total_distance = segSumD w ∧
  w.consumption_window_total_energy = segSumE w

instance (w : Window) : Decidable (WindowInv w) := by
  unfold WindowInv; infer_instance

instance (w : Window) : Decidable (TotalsInv w) := by
  unfold TotalsInv segSumD segSumE; infer_instance

/-- Loop well-formedness: the loop variable `distance` is non-negative and
the window satisfies the segment-bounds invariant.  This is what makes each
iteration's `segment_remaining_distance` positive and the loop terminate. -/
def LoopWF (s : LoopState) : Prop := 0 ≤ s.distance ∧ WindowInv s.window

/-- Loop relation for the distance total: the running total is exactly the
ring sum plus the distance still to be distributed. -/
def LoopTotD (s : LoopState) : Prop :=
  s.window.consumption_window_total_distance = segSumD s.window + s.distance

/-- Loop relation for the energy total: the running total is exactly the
ring sum plus the energy still to be distributed. -/
def LoopTotE (s : LoopState) : Prop :=
  s.window.consumption_window_total_energy = segSumE s.window + s.energy

/-- Once the remaining distance is gone, so is the remaining energy. -/
def LoopZero (s : LoopState) : Prop := s.distance = 0 → s.energy = 0

/-- Windows reachable from the initial window by `_accumulate` calls with
non-negative distance. -/
inductive Reachable : Window → Prop
  | init : Reachable initialWindow
  | step {w : Window} (d e : ℚ) : Reachable w → 0 ≤ d → Reachable (accumulate w d e)

/-- A GPS point as assembled by `_on_gps_update`: the three required fields
of the `point` dict. -/
structure GpsPoint where
  utc_time : ℤ
  latitude : ℚ
  longitude : ℚ
deriving DecidableEq

/-- The geometry oracle: the values `_haversine_distance_in_meter` and
`_bearing_between_points` compute.  Their trigonometric formulas are over
the reals and have no exact rational counterpart; the filter below uses
only the oracle's outputs, exactly as the source uses the two helpers. -/
structure Geodesy where
  haversine_distance_in_meter : GpsPoint → GpsPoint → ℚ
  bearing_between_points : GpsPoint → GpsPoint → ℚ

/-- The filter state `_calculate_distance_traveled` reads and mutates:
`self.last_point`, `self.last_bearing`, `self.is_continuous`. -/
structure FilterState where
  last_point : Option GpsPoint
  last_bearing : Option ℚ
  is_continuous : Bool
deriving DecidableEq

/-- Python's float `%` for a positive modulus: `x - y * ⌊x / y⌋`. -/
def fmod (x y : ℚ) : ℚ := x - y * ⌊x / y⌋

/-- The `bearing_diff` expression of line 169:
`abs(((bearing - last_bearing + 540) % 360) - 180)`. -/
def bearingDiff (bearing last_bearing : ℚ) : ℚ :=
  |fmod (bearing - last_bearing + 540) 360 - 180|

/-- `_calculate_distance_traveled(point, dt)` (lines 156–180), returning the
updated filter state and the optional distance.  When `last_point` is
`none` the body is skipped and `distance_clamped = None` is returned; a
sub-minimum-speed sample returns early (before any bearing computation)
with `is_continuous = False`; otherwise the distance is clamped to
`MAXIMUM_SPEED_MS * dt/1000`, and the bearing-discontinuity check may
discard the sample and forget `last_bearing`. -/
def calculate_distance_traveled (geo : Geodesy) (st : FilterState)
    (point : GpsPoint) (dt : ℚ) : FilterState × Option ℚ :=
  match st.last_point with
  | none => (st, none)
  | some last_point =>
    let distance_raw := geo.haversine_distance_in_meter last_point point
    let distance_min := MINIMUM_SPEED_MS * (dt / 1000)
    if distance_raw < distance_min then
      ({ st with is_continuous := false }, none)
    else
      let distance_max := MAXIMUM_SPEED_MS * (dt / 1000)
      let is_continuous := distance_raw ≤ distance_max
      let distance_clamped := min distance_raw distance_max
      let bearing := geo.bearing_between_points last_point point
      match st.last_bearing with
      | some last_bearing =>
        if is_continuous ∧
            BEARING_CHECK_MINIMUM_DISTANCE_M ≤ distance_clamped ∧
            BEARING_CHECK_THRESHOLD_DEGREES ≤ bearingDiff bearing last_bearing then
          ({ st with is_continuous := false, last_bearing := none }, none)
        else
          ({ st with
              is_continuous := is_continuous
              last_bearing := some bearing }, some distance_clamped)
      | none =>
        ({ st with
            is_continuous := is_continuous
            last_bearing := some bearing }, some distance_clamped)

/-- `_calculate_energy_used(power, dt)` (lines 146–154), parametrised by the
`exp` oracle (the real `exp` is transcendental; the claims constrain only
`rexp 0 = 1`, which the oracle is assumed to satisfy where needed).
Returns the new `power_ema` and the energy increment
`power_ema * (dt/1000) / 3600` in Wh. -/
def calculate_energy_used (rexp : ℚ → ℚ) (power_ema : Option ℚ)
    (power : ℚ) (dt : ℚ) : ℚ × ℚ :=
  let alpha := 1 - rexp (-(dt / POWER_EMA_MS))
  let new_ema :=
    match power_ema with
    | some ema => ema + alpha * (power - ema)
    | none => power
  (new_ema, new_ema * (dt / 1000) / 3600)

/-- The whole delegate state: the filter fields, the power EMA, and the
consumption window. -/
structure MotorDriveState where
  last_point : Option GpsPoint
  last_bearing : Option ℚ
  is_continuous : Bool
  power_ema : Option ℚ
  window : Window
deriving DecidableEq

/-- `_on_gps_update` (lines 67–103) at the state level, the four external
reads passed in as optional values.  If any of `power`, `utc_time`,
`latitude`, `longitude` is absent, the continuity chain is reset
(`is_continuous := false`, `last_point`, `last_bearing`, `power_ema`
cleared) and nothing else changes.  Otherwise `dt` is the wrapped
timestamp difference, the filter and the smoother both run, and the window
accumulates exactly when the filter returned a distance. -/
def on_gps_update (geo : Geodesy) (rexp : ℚ → ℚ) (st : MotorDriveState)
    (power : Option ℚ) (utc_time : Option ℤ)
    (latitude longitude : Option ℚ) : MotorDriveState :=
  match power, utc_time, latitude, longitude with
  | some power, some utc_time, some latitude, some longitude =>
    let point : GpsPoint :=
      { utc_time := utc_time, latitude := latitude, longitude := longitude }
    let dt : ℚ :=
      match st.last_point with
      | some last_point =>
        (((utc_time - last_point.utc_time + 86400000) % 86400000 : ℤ) : ℚ)
      | none => 0
    let fr := calculate_distance_traveled geo
      { last_point := st.last_point, last_bearing := st.last_bearing,
        is_continuous := st.is_continuous } point dt
    let er := calculate_energy_used rexp st.power_ema power dt
    let window :=
      match fr.2 with
      | some distance => accumulate st.window distance er.2
      | none => st.window
    { last_point := some point
      last_bearing := fr.1.last_bearing
      is_continuous := fr.1.is_continuous
      power_ema := some er.1
      window := window }
  | _, _, _, _ =>
    { st with
      is_continuous := false
      last_point := none
      last_bearing := none
      power_ema := none }

/-! Concrete fixtures used to evaluate the definitions at specific inputs:
two sample points, geometry oracles with the indicated constant outputs
(any pair of points realising these distances/bearings on the sphere gives
the same filter behaviour, since the filter reads only the oracle outputs),
and sample states. -/

/-- A sample previous GPS point. -/
def samplePrev : GpsPoint := { utc_time := 0, latitude := 0, longitude := 0 }

/-- A sample current GPS point, one second later. -/
def sampleCurr : GpsPoint := { utc_time := 1000, latitude := 1, longitude := 1 }

/-- Geometry oracle: 5 m apart, bearing 180°. -/
def geoTurn : Geodesy :=
  { haversine_distance_in_meter := fun _ _ => 5
    bearing_between_points := fun _ _ => 180 }

/-- Geometry oracle: 25 m apart, bearing 0°. -/
def geoFast : Geodesy :=
  { haversine_distance_in_meter := fun _ _ => 25
    bearing_between_points := fun _ _ => 0 }

/-- Geometry oracle: 0 m apart (stationary), bearing 90°. -/
def geoStill : Geodesy :=
  { haversine_distance_in_meter := fun _ _ => 0
    bearing_between_points := fun _ _ => 90 }

/-- Filter state with a previous point and previous bearing 0°. -/
def stBearing0 : FilterState :=
  { last_point := some samplePrev, last_bearing := some 0, is_continuous := true }

/-- Filter state with a previous point and previous bearing 10°. -/
def stBearing10 : FilterState :=
  { last_point := some samplePrev, last_bearing := some 10, is_continuous := true }

/-- A window with positive totals, for evaluating `update_values`. -/
def sampleWindow : Window :=
  { consumption_window := fun _ => (0, 0)
    consumption_window_index := 0
    consumption_window_total_distance := 2
    consumption_window_total_energy := 3 }

/-- A sample full delegate state. -/
def sampleState : MotorDriveState :=
  { last_point := some samplePrev
    last_bearing := some 10
    is_continuous := true
    power_ema := some 500
    window := sampleWindow }

lemma window_segment_size_pos : (0 : ℚ) < WINDOW_SEGMENT_SIZE_M := by
  norm_num [WINDOW_SEGMENT_SIZE_M]

/-- Advancing the write index never returns to the same slot (50 > 1). -/
lemma fin_succ_ne : ∀ i : Fin WINDOW_SEGMENT_COUNT, i + 1 ≠ i := by decide

lemma sum_update_rat {n : ℕ} (g : Fin n → ℚ) (j : Fin n) (c : ℚ) :
    ∑ i, Function.update g j c i = (∑ i, g i) + c - g j := by
  rw [Finset.sum_update_of_mem (Finset.mem_univ j), Finset.sdiff_singleton_eq_erase]
  have h := Finset.add_sum_erase Finset.univ g (Finset.mem_univ j)
  linarith

lemma update_comp_fst {n : ℕ} (f : Fin n → ℚ × ℚ) (j : Fin n) (b : ℚ × ℚ) :
    (fun i => (Function.update f j b i).1) = Function.update (fun i => (f i).1) j b.1 := by
  funext i
  rcases eq_or_ne i j with rfl | h
  · simp
  · simp [Function.update_noteq h]

lemma update_comp_snd {n : ℕ} (f : Fin n → ℚ × ℚ) (j : Fin n) (b : ℚ × ℚ) :
    (fun i => (Function.update f j b i).2) = Function.update (fun i => (f i).2) j b.2 := by
  funext i
  rcases eq_or_ne i j with rfl | h
  · simp
  · simp [Function.update_noteq h]

lemma sum_fst_update {n : ℕ} (f : Fin n → ℚ × ℚ) (j : Fin n) (b : ℚ × ℚ) :
    ∑ i, (Function.update f j b i).1 = (∑ i, (f i).1) + b.1 - (f j).1 := by
  rw [show (fun i => (Function.update f j b i).1) =
      Function.update (fun i => (f i).1) j b.1 from update_comp_fst f j b]
  exact sum_update_rat _ j b.1

lemma sum_snd_update {n : ℕ} (f : Fin n → ℚ × ℚ) (j : Fin n) (b : ℚ × ℚ) :
    ∑ i, (Function.update f j b i).2 = (∑ i, (f i).2) + b.2 - (f j).2 := by
  rw [show (fun i => (Function.update f j b i).2) =
      Function.update (fun i => (f i).2) j b.2 from update_comp_snd f j b]
  exact sum_update_rat _ j b.2

lemma accumulateStep_of_nonpos {s : LoopState} (h : ¬ 0 < s.distance) :
    accumulateStep s = s := by
  simp [accumulateStep, h]

/-- The `if` branch of the loop body: the remaining distance fits in the
current write segment. -/
lemma accumulateStep_fits {s : LoopState} (h0 : 0 < s.distance)
    (hfit : s.distance < WINDOW_SEGMENT_SIZE_M -
      (s.window.consumption_window s.window.consumption_window_index).1) :
    accumulateStep s =
      { distance := 0
        energy := 0
        window :=
          { s.window with
            consumption_window :=
              Function.update s.window.consumption_window
                s.window.consumption_window_index
                ((s.window.consumption_window s.window.consumption_window_index).1
                    + s.distance,
                  (s.window.consumption_window s.window.consumption_window_index).2
                    + s.energy) } } := by
  simp [accumulateStep, h0, hfit]

/-- The `else` branch of the loop body: fill the write segment to capacity
with a proportional energy share, advance the index, evict the segment now
at the index. -/
lemma accumulateStep_crosses {s : LoopState} (h0 : 0 < s.distance)
    (hge : ¬ s.distance < WINDOW_SEGMENT_SIZE_M -
      (s.window.consumption_window s.window.consumption_window_index).1) :
    accumulateStep s =
      { distance := s.distance - (WINDOW_SEGMENT_SIZE_M -
          (s.window.consumption_window s.window.consumption_window_index).1)
        energy := s.energy - s.energy * ((WINDOW_SEGMENT_SIZE_M -
          (s.window.consumption_window s.window.consumption_window_index).1)
            / s.distance)
        window :=
          { consumption_window :=
              Function.update
                (Function.update s.window.consumption_window
                  s.window.consumption_window_index
                  ((s.window.consumption_window s.window.consumption_window_index).1
                      + (WINDOW_SEGMENT_SIZE_M -
                        (s.window.consumption_window
                          s.window.consumption_window_index).1),
                    (s.window.consumption_window
                        s.window.consumption_window_index).2
                      + s.energy * ((WINDOW_SEGMENT_SIZE_M -
                          (s.window.consumption_window
                            s.window.consumption_window_index).1) / s.distance)))
                (s.window.consumption_window_index + 1) (0, 0)
            consumption_window_index := s.window.consumption_window_index + 1
            consumption_window_total_distance :=
              s.window.consumption_window_total_distance -
                (s.window.consumption_window
                  (s.window.consumption_window_index + 1)).1
            consumption_window_total_energy :=
              s.window.consumption_window_total_energy -
                (s.window.consumption_window
                  (s.window.consumption_window_index + 1)).2 } } := by
  simp only [accumulateStep, if_pos h0, if_neg hge]
  rw [Function.update_noteq (fin_succ_ne s.window.consumption_window_index)]

/-- One loop iteration preserves well-formedness: the write segment stays
strictly below capacity and all segments stay within `[0, 37]`. -/
lemma loopWF_step {s : LoopState} (h : LoopWF s) : LoopWF (accumulateStep s) := by
  have hd := h.1
  have hbounds := h.2.1
  have hstrict := h.2.2
  by_cases h0 : 0 < s.distance
  · by_cases hfit : s.distance < WINDOW_SEGMENT_SIZE_M -
        (s.window.consumption_window s.window.consumption_window_index).1
    · rw [accumulateStep_fits h0 hfit]
      unfold LoopWF WindowInv
      dsimp only
      refine ⟨le_refl 0, fun i => ?_, ?_⟩
      · rcases eq_or_ne i s.window.consumption_window_index with rfl | hne
        · rw [Function.update_same]
          dsimp only
          refine ⟨?_, ?_⟩
          · linarith [(hbounds s.window.consumption_window_index).1]
          · linarith
        · rw [Function.update_noteq hne]; exact hbounds i
      · rw [Function.update_same]
        dsimp only
        linarith
    · rw [accumulateStep_crosses h0 hfit]
      push_neg at hfit
      unfold LoopWF WindowInv
      dsimp only
      refine ⟨by linarith, fun i => ?_, ?_⟩
      · rcases eq_or_ne i (s.window.consumption_window_index + 1) with rfl | h1
        · rw [Function.update_same]
          exact ⟨le_refl 0, le_of_lt window_segment_size_pos⟩
        · rw [Function.update_noteq h1]
          rcases eq_or_ne i s.window.consumption_window_index with rfl | h2
          · rw [Function.update_same]
            dsimp only
            refine ⟨?_, ?_⟩
            · linarith [(hbounds s.window.consumption_window_index).1]
            · linarith
          · rw [Function.update_noteq h2]; exact hbounds i
      · rw [Function.update_same]
        dsimp only
        exact window_segment_size_pos
  · rw [accumulateStep_of_nonpos h0]; exact h

/-- One loop iteration preserves `running distance total = ring sum +
remaining distance`. -/
lemma loopTotD_step {s : LoopState} (h : LoopTotD s) : LoopTotD (accumulateStep s) := by
  by_cases h0 : 0 < s.distance
  · by_cases hfit : s.distance < WINDOW_SEGMENT_SIZE_M -
        (s.window.consumption_window s.window.consumption_window_index).1
    · rw [accumulateStep_fits h0 hfit]
      unfold LoopTotD segSumD at h ⊢
      dsimp only
      rw [sum_fst_update]
      dsimp only
      linarith
    · rw [accumulateStep_crosses h0 hfit]
      unfold LoopTotD segSumD at h ⊢
      dsimp only
      rw [sum_fst_update, sum_fst_update,
        Function.update_noteq (fin_succ_ne s.window.consumption_window_index)]
      dsimp only
      linarith
  · rw [accumulateStep_of_nonpos h0]; exact h

/-- One loop iteration preserves `running energy total = ring sum +
remaining energy`. -/
lemma loopTotE_step {s : LoopState} (h : LoopTotE s) : LoopTotE (accumulateStep s) := by
  by_cases h0 : 0 < s.distance
  · by_cases hfit : s.distance < WINDOW_SEGMENT_SIZE_M -
        (s.window.consumption_window s.window.consumption_window_index).1
    · rw [accumulateStep_fits h0 hfit]
      unfold LoopTotE segSumE at h ⊢
      dsimp only
      rw [sum_snd_update]
      dsimp only
      linarith
    · rw [accumulateStep_crosses h0 hfit]
      unfold LoopTotE segSumE at h ⊢
      dsimp only
      rw [sum_snd_update, sum_snd_update,
        Function.update_noteq (fin_succ_ne s.window.consumption_window_index)]
      dsimp only
      linarith
  · rw [accumulateStep_of_nonpos h0]; exact h

/-- One loop iteration preserves `remaining distance 0 → remaining energy 0`
(an exact boundary fill hands the whole remaining energy to the segment). -/
lemma loopZero_step {s : LoopState} (h : LoopZero s) : LoopZero (accumulateStep s) := by
  by_cases h0 : 0 < s.distance
  · by_cases hfit : s.distance < WINDOW_SEGMENT_SIZE_M -
        (s.window.consumption_window s.window.consumption_window_index).1
    · rw [accumulateStep_fits h0 hfit]
      intro _; rfl
    · rw [accumulateStep_crosses h0 hfit]
      intro hd0
      dsimp only at hd0 ⊢
      have hrem : WINDOW_SEGMENT_SIZE_M -
          (s.window.consumption_window s.window.consumption_window_index).1 =
          s.distance := by linarith
      rw [hrem, div_self (ne_of_gt h0)]
      ring
  · rw [accumulateStep_of_nonpos h0]; exact h

lemma iterate_pres {P : LoopState → Prop}
    (hP : ∀ s, P s → P (accumulateStep s)) :
    ∀ (n : ℕ) (s : LoopState), P s → P (accumulateStep^[n] s) := by
  intro n
  induction n with
  | zero => intro s hs; exact hs
  | succ n ih =>
    intro s hs
    rw [Function.iterate_succ_apply]
    exact ih _ (hP s hs)

/-- Termination bound for the `while` loop: starting from a well-formed
state whose remaining distance is below `37·n` plus the space left in the
write segment, `n + 1` iterations drive the remaining distance to 0. -/
lemma loop_reaches_zero :
    ∀ (n : ℕ) (s : LoopState), LoopWF s →
      s.distance < WINDOW_SEGMENT_SIZE_M * n + (WINDOW_SEGMENT_SIZE_M -
        (s.window.consumption_window s.window.consumption_window_index).1) →
      (accumulateStep^[n + 1] s).distance = 0 := by
  intro n
  induction n with
  | zero =>
    intro s hwf hlt
    rcases lt_or_eq_of_le hwf.1 with h0 | h0
    · rw [Function.iterate_one,
        accumulateStep_fits h0 (by push_cast at hlt; linarith)]
    · rw [Function.iterate_one, accumulateStep_of_nonpos (by rw [← h0]; exact lt_irrefl 0)]
      exact h0.symm
  | succ n ih =>
    intro s hwf hlt
    rcases lt_or_eq_of_le hwf.1 with h0 | h0
    · by_cases hfit : s.distance < WINDOW_SEGMENT_SIZE_M -
          (s.window.consumption_window s.window.consumption_window_index).1
      · rw [Function.iterate_succ_apply, accumulateStep_fits h0 hfit,
          Function.iterate_fixed (accumulateStep_of_nonpos (by exact lt_irrefl 0))]
      · rw [Function.iterate_succ_apply]
        apply ih _ (loopWF_step hwf)
        rw [accumulateStep_crosses h0 hfit]
        dsimp only
        rw [Function.update_same]
        push_cast at hlt ⊢
        linarith
    · rw [Function.iterate_fixed (accumulateStep_of_nonpos (by rw [← h0]; exact lt_irrefl 0))]
      exact h0.symm

/-- With the fuel `accumulateFuel`, the loop of `_accumulate` always reaches
remaining distance 0 from a well-formed state: the fuel really implements
the `while distance > 0` loop. -/
lemma loop_terminates_fuel (s : LoopState) (h : LoopWF s) :
    (accumulateStep^[accumulateFuel s.distance] s).distance = 0 := by
  unfold accumulateFuel
  apply loop_reaches_zero _ _ h
  have h37 : (0:ℚ) < WINDOW_SEGMENT_SIZE_M := window_segment_size_pos
  have h1 : s.distance / WINDOW_SEGMENT_SIZE_M ≤
      (⌈s.distance / WINDOW_SEGMENT_SIZE_M⌉ : ℚ) := Int.le_ceil _
  have h2 : ((⌈s.distance / WINDOW_SEGMENT_SIZE_M⌉.toNat : ℕ) : ℚ) =
      ((⌈s.distance / WINDOW_SEGMENT_SIZE_M⌉ : ℤ) : ℚ) := by
    exact_mod_cast congrArg (fun z : ℤ => (z : ℚ))
      (Int.toNat_of_nonneg (Int.ceil_nonneg (div_nonneg h.1 (le_of_lt h37))))
  have h3 : s.distance / WINDOW_SEGMENT_SIZE_M * WINDOW_SEGMENT_SIZE_M = s.distance :=
    div_mul_cancel₀ _ (ne_of_gt h37)
  have h4 := mul_le_mul_of_nonneg_right h1 (le_of_lt h37)
  rw [h3] at h4
  have h5 : (s.window.consumption_window s.window.consumption_window_index).1 <
      WINDOW_SEGMENT_SIZE_M := h.2.2
  rw [h2]
  nlinarith

/-- Combined facts about the finished loop, from a well-formed start. -/
lemma loop_final (s : LoopState) (h : LoopWF s) :
    LoopWF (accumulateStep^[accumulateFuel s.distance] s) ∧
    (accumulateStep^[accumulateFuel s.distance] s).distance = 0 ∧
    (LoopTotD s → LoopTotD (accumulateStep^[accumulateFuel s.distance] s)) ∧
    (LoopTotE s → LoopTotE (accumulateStep^[accumulateFuel s.distance] s)) ∧
    (LoopZero s → (accumulateStep^[accumulateFuel s.distance] s).energy = 0) := by
  refine ⟨?_, ?_, ?_, ?_, ?_⟩
  · exact iterate_pres (P := LoopWF) (fun _ => loopWF_step) _ s h
  · exact loop_terminates_fuel s h
  · intro hD
    exact iterate_pres (P := LoopTotD) (fun _ => loopTotD_step) _ s hD
  · intro hE
    exact iterate_pres (P := LoopTotE) (fun _ => loopTotE_step) _ s hE
  · intro hZ
    exact iterate_pres (P := LoopZero) (fun _ => loopZero_step) _ s hZ
      (loop_terminates_fuel s h)

/-- `_accumulate` written as its loop. -/
lemma accumulate_eq_loop (w : Window) (d e : ℚ) :
    accumulate w d e =
      (accumulateStep^[accumulateFuel d]
        { distance := d
          energy := e
          window :=
            { w with
              consumption_window_total_distance :=
                w.consumption_window_total_distance + d
              consumption_window_total_energy :=
                w.consumption_window_total_energy + e } }).window := rfl

/-- `_accumulate` keeps every segment within bounds. -/
lemma accumulate_windowInv (w : Window) (d e : ℚ) (hw : WindowInv w) (hd : 0 ≤ d) :
    WindowInv (accumulate w d e) :=
  ((loop_final
      { distance := d
        energy := e
        window :=
          { w with
            consumption_window_total_distance :=
              w.consumption_window_total_distance + d
            consumption_window_total_energy :=
              w.consumption_window_total_energy + e } } ⟨hd, hw⟩).1).2

/-- `_accumulate` preserves `total distance = ring distance sum`. -/
lemma accumulate_totD (w : Window) (d e : ℚ) (hw : WindowInv w) (hd : 0 ≤ d)
    (htd : w.consumption_window_total_distance = segSumD w) :
    (accumulate w d e).consumption_window_total_distance =
      segSumD (accumulate w d e) := by
  have key := loop_final
    { distance := d
      energy := e
      window :=
        { w with
          consumption_window_total_distance :=
            w.consumption_window_total_distance + d
          consumption_window_total_energy :=
            w.consumption_window_total_energy + e } } ⟨hd, hw⟩
  have hD := key.2.2.1 (by
    show w.consumption_window_total_distance + d = segSumD w + d
    linarith)
  unfold LoopTotD at hD
  rw [key.2.1, add_zero] at hD
  rw [accumulate_eq_loop]
  exact hD

/-- `_accumulate` preserves `total energy = ring energy sum` provided the
input is not a pure-energy call (`d > 0`, or `e = 0`). -/
lemma accumulate_totE (w : Window) (d e : ℚ) (hw : WindowInv w) (hd : 0 ≤ d)
    (hte : w.consumption_window_total_energy = segSumE w)
    (hde : 0 < d ∨ e = 0) :
    (accumulate w d e).consumption_window_total_energy =
      segSumE (accumulate w d e) := by
  have key := loop_final
    { distance := d
      energy := e
      window :=
        { w with
          consumption_window_total_distance :=
            w.consumption_window_total_distance + d
          consumption_window_total_energy :=
            w.consumption_window_total_energy + e } } ⟨hd, hw⟩
  have hZ : LoopZero
      { distance := d
        energy := e
        window :=
          { w with
            consumption_window_total_distance :=
              w.consumption_window_total_distance + d
            consumption_window_total_energy :=
              w.consumption_window_total_energy + e } } := by
    intro h0
    rcases hde with h1 | h1
    · exact absurd (show (0:ℚ) < 0 by
        calc (0:ℚ) < d := h1
        _ = 0 := h0) (lt_irrefl 0)
    · exact h1
  have hE := key.2.2.2.1 (by
    show w.consumption_window_total_energy + e = segSumE w + e
    linarith)
  unfold LoopTotE at hE
  rw [key.2.2.2.2 hZ, add_zero] at hE
  rw [accumulate_eq_loop]
  exact hE

lemma windowInv_initial : WindowInv initialWindow := by
  refine ⟨fun i => ?_, ?_⟩
  · constructor <;> norm_num [initialWindow, WINDOW_SEGMENT_SIZE_M]
  · norm_num [initialWindow, WINDOW_SEGMENT_SIZE_M]

lemma totalsInv_initial : TotalsInv initialWindow := by
  constructor <;> simp [initialWindow, segSumD, segSumE, TotalsInv]

/-- Every reachable window is well-formed and its distance total equals the
ring sum (for any energies, since the distance side of the loop is
independent of energy). -/
lemma reachable_inv {w : Window} (h : Reachable w) :
    WindowInv w ∧ w.consumption_window_total_distance = segSumD w := by
  induction h with
  | init => exact ⟨windowInv_initial, totalsInv_initial.1⟩
  | step d e _ hd ih =>
    exact ⟨accumulate_windowInv _ d e ih.1 hd,
      accumulate_totD _ d e ih.1 hd ih.2⟩

/-- `_accumulate` with zero distance never enters the loop: it only adds to
the totals. -/
lemma accumulate_zero_dist (w : Window) (e : ℚ) :
    accumulate w 0 e =
      { w with
        consumption_window_total_distance :=
          w.consumption_window_total_distance + 0
        consumption_window_total_energy :=
          w.consumption_window_total_energy + e } := by
  rw [accumulate_eq_loop]
  have hfuel : accumulateFuel 0 = 1 := by
    norm_num [accumulateFuel]
  rw [hfuel, Function.iterate_one, accumulateStep_of_nonpos (lt_irrefl 0)]

/-- The totals invariant through a pure-totals update. -/
lemma totalsInv_add_iff (w : Window) (x y : ℚ) :
    TotalsInv
      { w with
        consumption_window_total_distance :=
          w.consumption_window_total_distance + x
        consumption_window_total_energy :=
          w.consumption_window_total_energy + y } ↔
      (w.consumption_window_total_distance + x = segSumD w ∧
        w.consumption_window_total_energy + y = segSumE w) := Iff.rfl

/-! Branch characterisations of `_calculate_distance_traveled`. -/

/-- First sample after a reset: nothing is computed. -/
lemma cdt_no_last_point (geo : Geodesy) (st : FilterState) (point : GpsPoint)
    (dt : ℚ) (h : st.last_point = none) :
    calculate_distance_traveled geo st point dt = (st, none) := by
  unfold calculate_distance_traveled
  rw [h]

/-- Sub-minimum-speed rejection (early return at line 163). -/
lemma cdt_min_reject (geo : Geodesy) (st : FilterState) (point : GpsPoint)
    (dt : ℚ) (prev : GpsPoint) (hlp : st.last_point = some prev)
    (hmin : geo.haversine_distance_in_meter prev point <
      MINIMUM_SPEED_MS * (dt / 1000)) :
    calculate_distance_traveled geo st point dt =
      ({ st with is_continuous := false }, none) := by
  unfold calculate_distance_traveled
  rw [hlp]
  dsimp only
  rw [if_pos hmin]

/-- Accepted sample with no previous bearing: clamp, set the continuity
flag, store the bearing. -/
lemma cdt_no_prev_bearing (geo : Geodesy) (st : FilterState) (point : GpsPoint)
    (dt : ℚ) (prev : GpsPoint) (hlp : st.last_point = some prev)
    (hmin : ¬ geo.haversine_distance_in_meter prev point <
      MINIMUM_SPEED_MS * (dt / 1000))
    (hlb : st.last_bearing = none) :
    calculate_distance_traveled geo st point dt =
      ({ st with
          is_continuous := decide (geo.haversine_distance_in_meter prev point ≤
            MAXIMUM_SPEED_MS * (dt / 1000))
          last_bearing := some (geo.bearing_between_points prev point) },
        some (min (geo.haversine_distance_in_meter prev point)
          (MAXIMUM_SPEED_MS * (dt / 1000)))) := by
  unfold calculate_distance_traveled
  rw [hlp]
  dsimp only
  rw [if_neg hmin, hlb]

/-- Bearing-discontinuity rejection: discard the distance, break the
bearing chain. -/
lemma cdt_discontinuous (geo : Geodesy) (st : FilterState) (point : GpsPoint)
    (dt : ℚ) (prev : GpsPoint) (lb : ℚ) (hlp : st.last_point = some prev)
    (hmin : ¬ geo.haversine_distance_in_meter prev point <
      MINIMUM_SPEED_MS * (dt / 1000))
    (hlb : st.last_bearing = some lb)
    (hg : geo.haversine_distance_in_meter prev point ≤
        MAXIMUM_SPEED_MS * (dt / 1000) ∧
      BEARING_CHECK_MINIMUM_DISTANCE_M ≤
        min (geo.haversine_distance_in_meter prev point)
          (MAXIMUM_SPEED_MS * (dt / 1000)) ∧
      BEARING_CHECK_THRESHOLD_DEGREES ≤
        bearingDiff (geo.bearing_between_points prev point) lb) :
    calculate_distance_traveled geo st point dt =
      ({ st with is_continuous := false, last_bearing := none }, none) := by
  unfold calculate_distance_traveled
  rw [hlp]
  dsimp only
  rw [if_neg hmin, hlb]
  dsimp only
  rw [if_pos hg]

/-- Accepted sample with a previous bearing but no discontinuity: clamp,
set the continuity flag, store the bearing. -/
lemma cdt_continuous (geo : Geodesy) (st : FilterState) (point : GpsPoint)
    (dt : ℚ) (prev : GpsPoint) (lb : ℚ) (hlp : st.last_point = some prev)
    (hmin : ¬ geo.haversine_distance_in_meter prev point <
      MINIMUM_SPEED_MS * (dt / 1000))
    (hlb : st.last_bearing = some lb)
    (hg : ¬(geo.haversine_distance_in_meter prev point ≤
        MAXIMUM_SPEED_MS * (dt / 1000) ∧
      BEARING_CHECK_MINIMUM_DISTANCE_M ≤
        min (geo.haversine_distance_in_meter prev point)
          (MAXIMUM_SPEED_MS * (dt / 1000)) ∧
      BEARING_CHECK_THRESHOLD_DEGREES ≤
        bearingDiff (geo.bearing_between_points prev point) lb)) :
    calculate_distance_traveled geo st point dt =
      ({ st with
          is_continuous := decide (geo.haversine_distance_in_meter prev point ≤
            MAXIMUM_SPEED_MS * (dt / 1000))
          last_bearing := some (geo.bearing_between_points prev point) },
        some (min (geo.haversine_distance_in_meter prev point)
          (MAXIMUM_SPEED_MS * (dt / 1000)))) := by
  unfold calculate_distance_traveled
  rw [hlp]
  dsimp only
  rw [if_neg hmin, hlb]
  dsimp only
  rw [if_neg hg]

/-- C1 (counterexample): the claim quantifies over any `energy_wh`;
`_accumulate(0, 1)` on the (totals-consistent) initial window adds 1 Wh to
the energy total while the loop body never runs, so afterwards the energy
total no longer equals the ring sum. -/
theorem C1_counterexample :
    (0:ℚ) ≤ 0 ∧ TotalsInv initialWindow ∧
      ¬ TotalsInv (accumulate initialWindow 0 1) := by
  refine ⟨le_refl 0, totalsInv_initial, ?_⟩
  rw [accumulate_zero_dist, totalsInv_add_iff]
  intro hT
  have h1 := totalsInv_initial.2
  have h2 := hT.2
  rw [show initialWindow.consumption_window_total_energy = 0 from rfl] at h1 h2
  linarith

/-- C1 (amended): after `_accumulate(distance_m, energy_wh)` on a
well-formed window whose totals equal its ring sums, with
`distance_m ≥ 0` and the call not a pure-energy call (`distance_m > 0` or
`energy_wh = 0`), the running totals again equal the ring sums — and they
are maintained incrementally by the loop, never recomputed. -/
theorem C1_totals_invariant (w : Window) (d e : ℚ) (hw : WindowInv w)
    (ht : TotalsInv w) (hd : 0 ≤ d) (hde : 0 < d ∨ e = 0) :
    TotalsInv (accumulate w d e) :=
  ⟨accumulate_totD w d e hw hd ht.1, accumulate_totE w d e hw hd ht.2 hde⟩

theorem C1_totals_invariant_witness :
    WindowInv initialWindow ∧ TotalsInv initialWindow ∧ (0:ℚ) ≤ 40 ∧
      ((0:ℚ) < 40 ∨ (7:ℚ) = 0) ∧ TotalsInv (accumulate initialWindow 40 7) :=
  ⟨windowInv_initial, totalsInv_initial, by norm_num, Or.inl (by norm_num),
    C1_totals_invariant initialWindow 40 7 windowInv_initial totalsInv_initial
      (by norm_num) (Or.inl (by norm_num))⟩

/-- C2: at every state reachable by `_accumulate` calls with non-negative
distance, every segment distance lies in `[0, 37]` and the total distance
never exceeds `50 × 37 = 1850` m. -/
theorem C2_segment_bounds (w : Window) (h : Reachable w) :
    (∀ i, 0 ≤ (w.consumption_window i).1 ∧
      (w.consumption_window i).1 ≤ WINDOW_SEGMENT_SIZE_M) ∧
    w.consumption_window_total_distance ≤ 1850 := by
  obtain ⟨hw, htd⟩ := reachable_inv h
  refine ⟨hw.1, ?_⟩
  rw [htd]
  unfold segSumD
  calc ∑ i, (w.consumption_window i).1 ≤
      ∑ _i : Fin WINDOW_SEGMENT_COUNT, WINDOW_SEGMENT_SIZE_M :=
        Finset.sum_le_sum (fun i _ => (hw.1 i).2)
    _ = 1850 := by
        simp only [Finset.sum_const, Finset.card_univ, Fintype.card_fin,
          nsmul_eq_mul]
        norm_num [WINDOW_SEGMENT_COUNT, WINDOW_SEGMENT_SIZE_M]

theorem C2_segment_bounds_witness :
    Reachable (accumulate initialWindow 100 3) ∧
    (accumulate initialWindow 100 3).consumption_window_total_distance ≤ 1850 :=
  ⟨Reachable.step 100 3 Reachable.init (by norm_num),
    (C2_segment_bounds _ (Reachable.step 100 3 Reachable.init (by norm_num))).2⟩

/-- C3: from any reachable window and any `distance_m ≥ 0`, the `while`
loop of `_accumulate` terminates (some number of iterations drives the
remaining distance to 0), and each iteration with positive remaining
distance either fully consumes it, or fills the write segment exactly to
capacity, advances the index, evicts (zeroes) exactly the one segment now
at the index, leaves every other segment alone, and strictly decreases the
remaining distance. -/
theorem C3_loop_terminates (w : Window) (d e : ℚ) (h : Reachable w) (hd : 0 ≤ d) :
    (∃ n, (accumulateStep^[n]
      { distance := d
        energy := e
        window :=
          { w with
            consumption_window_total_distance :=
              w.consumption_window_total_distance + d
            consumption_window_total_energy :=
              w.consumption_window_total_energy + e } }).distance = 0) ∧
    (∀ s : LoopState, WindowInv s.window → 0 < s.distance →
      (accumulateStep s).distance = 0 ∨
      ((accumulateStep s).distance < s.distance ∧
        (accumulateStep s).window.consumption_window_index =
          s.window.consumption_window_index + 1 ∧
        ((accumulateStep s).window.consumption_window
          s.window.consumption_window_index).1 = WINDOW_SEGMENT_SIZE_M ∧
        (accumulateStep s).window.consumption_window
          (s.window.consumption_window_index + 1) = (0, 0) ∧
        ∀ j, j ≠ s.window.consumption_window_index →
          j ≠ s.window.consumption_window_index + 1 →
          (accumulateStep s).window.consumption_window j =
            s.window.consumption_window j)) := by
  constructor
  · have hw := (reachable_inv h).1
    exact ⟨accumulateFuel d,
      (loop_final
        { distance := d
          energy := e
          window :=
            { w with
              consumption_window_total_distance :=
                w.consumption_window_total_distance + d
              consumption_window_total_energy :=
                w.consumption_window_total_energy + e } } ⟨hd, hw⟩).2.1⟩
  · intro s hsw hsd
    by_cases hfit : s.distance < WINDOW_SEGMENT_SIZE_M -
        (s.window.consumption_window s.window.consumption_window_index).1
    · left
      rw [accumulateStep_fits hsd hfit]
    · right
      rw [accumulateStep_crosses hsd hfit]
      dsimp only
      refine ⟨?_, rfl, ?_, ?_, ?_⟩
      · have := hsw.2
        linarith
      · rw [Function.update_noteq (Ne.symm (fin_succ_ne _)), Function.update_same]
        dsimp only
        ring
      · rw [Function.update_same]
      · intro j hj1 hj2
        rw [Function.update_noteq hj2, Function.update_noteq hj1]

theorem C3_loop_terminates_witness :
    Reachable initialWindow ∧ (0:ℚ) ≤ 100 ∧
    (∃ n, (accumulateStep^[n]
      { distance := 100
        energy := 5
        window :=
          { initialWindow with
            consumption_window_total_distance :=
              initialWindow.consumption_window_total_distance + 100
            consumption_window_total_energy :=
              initialWindow.consumption_window_total_energy + 5 } }).distance = 0) :=
  ⟨Reachable.init, by norm_num,
    (C3_loop_terminates initialWindow 100 5 Reachable.init (by norm_num)).1⟩

/-- C9: `update_values` publishes a value exactly when the total distance
is positive, in which case the value is
`total_energy / (total_distance / 1000)` (Wh/km); on the initial (empty)
window it publishes nothing. -/
theorem C9_output_condition (w : Window) :
    ((update_values w).isSome ↔ 0 < w.consumption_window_total_distance) ∧
    (0 < w.consumption_window_total_distance →
      update_values w = some (w.consumption_window_total_energy /
        (w.consumption_window_total_distance / 1000))) ∧
    update_values initialWindow = none := by
  refine ⟨?_, ?_, ?_⟩
  · unfold update_values
    split_ifs with h <;> simp [h]
  · intro h
    unfold update_values
    rw [if_pos h]
  · rfl

theorem C9_output_condition_witness :
    (0:ℚ) < 2 ∧ update_values sampleWindow = some ((3:ℚ) / (2 / 1000)) := by
  refine ⟨by norm_num, ?_⟩
  have h := (C9_output_condition sampleWindow).2.1 (by norm_num [sampleWindow])
  simpa [sampleWindow] using h

/-- C10: `_accumulate(0, energy_wh)` never enters the loop: every segment
and the write index are unchanged, the distance total is unchanged, and
`energy_wh` is still added to the energy total — so the totals-equal-sums
invariant survives such a call exactly when `energy_wh = 0`. -/
theorem C10_zero_distance_call (w : Window) (e : ℚ) :
    (accumulate w 0 e).consumption_window = w.consumption_window ∧
    (accumulate w 0 e).consumption_window_index = w.consumption_window_index ∧
    (accumulate w 0 e).consumption_window_total_distance =
      w.consumption_window_total_distance ∧
    (accumulate w 0 e).consumption_window_total_energy =
      w.consumption_window_total_energy + e ∧
    (TotalsInv w → (TotalsInv (accumulate w 0 e) ↔ e = 0)) := by
  rw [accumulate_zero_dist w e]
  refine ⟨rfl, rfl, by dsimp only; ring, rfl, ?_⟩
  intro ht
  rw [totalsInv_add_iff]
  constructor
  · intro hT
    have h2 := hT.2
    have h3 := ht.2
    linarith
  · intro he
    subst he
    exact ⟨by linarith [ht.1], by linarith [ht.2]⟩

theorem C10_zero_distance_call_witness :
    (accumulate initialWindow 0 0).consumption_window_total_energy =
      initialWindow.consumption_window_total_energy + 0 ∧
    (TotalsInv (accumulate initialWindow 0 0) ↔ (0:ℚ) = 0) :=
  ⟨(C10_zero_distance_call initialWindow 0).2.2.2.1,
    (C10_zero_distance_call initialWindow 0).2.2.2.2 totalsInv_initial⟩

/-- A 180° turn against a 0° previous bearing has the maximal shortest
angular difference. -/
lemma bearingDiff_180_0 : bearingDiff 180 0 = 180 := by
  unfold bearingDiff fmod
  norm_num

/-- C4 (counterexample): with a known previous bearing of 0°, a 5 m sample
(within both speed bounds) whose bearing is 180° trips the
bearing-discontinuity check, so the filter returns no distance and sets
`is_continuous = false` — not the claimed clamp-and-return. -/
theorem C4_counterexample :
    MINIMUM_SPEED_MS * (1000 / 1000) ≤
      geoTurn.haversine_distance_in_meter samplePrev sampleCurr ∧
    (calculate_distance_traveled geoTurn stBearing0 sampleCurr 1000).2 ≠
      some (min (geoTurn.haversine_distance_in_meter samplePrev sampleCurr)
        (MAXIMUM_SPEED_MS * (1000 / 1000))) ∧
    (calculate_distance_traveled geoTurn stBearing0 sampleCurr 1000).1.is_continuous ≠
      decide (geoTurn.haversine_distance_in_meter samplePrev sampleCurr ≤
        MAXIMUM_SPEED_MS * (1000 / 1000)) := by
  have hres := cdt_discontinuous geoTurn stBearing0 sampleCurr 1000 samplePrev 0
    rfl (by norm_num [geoTurn, MINIMUM_SPEED_MS]) rfl
    ⟨by norm_num [geoTurn, MAXIMUM_SPEED_MS],
      by norm_num [geoTurn, MAXIMUM_SPEED_MS, BEARING_CHECK_MINIMUM_DISTANCE_M],
      by
        rw [show geoTurn.bearing_between_points samplePrev sampleCurr =
          (180:ℚ) from rfl, bearingDiff_180_0]
        norm_num [BEARING_CHECK_THRESHOLD_DEGREES]⟩
  refine ⟨by norm_num [geoTurn, MINIMUM_SPEED_MS], ?_, ?_⟩
  · rw [hres]
    simp
  · rw [hres]
    have hdec : decide (geoTurn.haversine_distance_in_meter samplePrev sampleCurr ≤
        MAXIMUM_SPEED_MS * (1000 / 1000)) = true :=
      decide_eq_true (by norm_num [geoTurn, MAXIMUM_SPEED_MS])
    rw [hdec]
    simp

/-- C4 (amended): for a sample at or above minimum speed, provided the
bearing-discontinuity condition does not fire (no previous bearing, or the
continuity/1 m/45° conjunction fails), the filter sets
`is_continuous = (raw ≤ max)` and returns `min(raw, max)`; in particular an
above-maximum-speed sample always returns the capped distance with
`is_continuous = false` — clamped, never discarded. -/
theorem C4_clamp (geo : Geodesy) (st : FilterState) (point : GpsPoint)
    (dt : ℚ) (prev : GpsPoint) (hlp : st.last_point = some prev)
    (hmin : MINIMUM_SPEED_MS * (dt / 1000) ≤
      geo.haversine_distance_in_meter prev point) :
    ((∀ lb, st.last_bearing = some lb →
        ¬(geo.haversine_distance_in_meter prev point ≤
            MAXIMUM_SPEED_MS * (dt / 1000) ∧
          BEARING_CHECK_MINIMUM_DISTANCE_M ≤
            min (geo.haversine_distance_in_meter prev point)
              (MAXIMUM_SPEED_MS * (dt / 1000)) ∧
          BEARING_CHECK_THRESHOLD_DEGREES ≤
            bearingDiff (geo.bearing_between_points prev point) lb)) →
      ((calculate_distance_traveled geo st point dt).1.is_continuous =
          decide (geo.haversine_distance_in_meter prev point ≤
            MAXIMUM_SPEED_MS * (dt / 1000)) ∧
        (calculate_distance_traveled geo st point dt).2 =
          some (min (geo.haversine_distance_in_meter prev point)
            (MAXIMUM_SPEED_MS * (dt / 1000))))) ∧
    (MAXIMUM_SPEED_MS * (dt / 1000) <
        geo.haversine_distance_in_meter prev point →
      ((calculate_distance_traveled geo st point dt).1.is_continuous = false ∧
        (calculate_distance_traveled geo st point dt).2 =
          some (MAXIMUM_SPEED_MS * (dt / 1000)))) := by
  have hmin' : ¬ geo.haversine_distance_in_meter prev point <
      MINIMUM_SPEED_MS * (dt / 1000) := not_lt.mpr hmin
  constructor
  · intro hnb
    cases hlb : st.last_bearing with
    | none =>
      rw [cdt_no_prev_bearing geo st point dt prev hlp hmin' hlb]
      exact ⟨rfl, rfl⟩
    | some lb =>
      rw [cdt_continuous geo st point dt prev lb hlp hmin' hlb (hnb lb hlb)]
      exact ⟨rfl, rfl⟩
  · intro hfast
    have hg : ∀ lb : ℚ,
        ¬(geo.haversine_distance_in_meter prev point ≤
            MAXIMUM_SPEED_MS * (dt / 1000) ∧
          BEARING_CHECK_MINIMUM_DISTANCE_M ≤
            min (geo.haversine_distance_in_meter prev point)
              (MAXIMUM_SPEED_MS * (dt / 1000)) ∧
          BEARING_CHECK_THRESHOLD_DEGREES ≤
            bearingDiff (geo.bearing_between_points prev point) lb) :=
      fun lb hc => absurd hc.1 (not_le.mpr hfast)
    have hcont : decide (geo.haversine_distance_in_meter prev point ≤
        MAXIMUM_SPEED_MS * (dt / 1000)) = false :=
      decide_eq_false (not_le.mpr hfast)
    have hmineq : min (geo.haversine_distance_in_meter prev point)
        (MAXIMUM_SPEED_MS * (dt / 1000)) = MAXIMUM_SPEED_MS * (dt / 1000) :=
      min_eq_right (le_of_lt hfast)
    cases hlb : st.last_bearing with
    | none =>
      rw [cdt_no_prev_bearing geo st point dt prev hlp hmin' hlb]
      exact ⟨hcont, by rw [hmineq]⟩
    | some lb =>
      rw [cdt_continuous geo st point dt prev lb hlp hmin' hlb (hg lb)]
      exact ⟨hcont, by rw [hmineq]⟩

theorem C4_clamp_witness :
    stBearing10.last_point = some samplePrev ∧
    MINIMUM_SPEED_MS * (1000 / 1000) ≤
      geoFast.haversine_distance_in_meter samplePrev sampleCurr ∧
    MAXIMUM_SPEED_MS * (1000 / 1000) <
      geoFast.haversine_distance_in_meter samplePrev sampleCurr ∧
    ((calculate_distance_traveled geoFast stBearing10 sampleCurr 1000).1.is_continuous
        = false ∧
      (calculate_distance_traveled geoFast stBearing10 sampleCurr 1000).2 =
        some (MAXIMUM_SPEED_MS * (1000 / 1000))) :=
  ⟨rfl, by norm_num [geoFast, MINIMUM_SPEED_MS],
    by norm_num [geoFast, MAXIMUM_SPEED_MS],
    (C4_clamp geoFast stBearing10 sampleCurr 1000 samplePrev rfl
        (by norm_num [geoFast, MINIMUM_SPEED_MS])).2
      (by norm_num [geoFast, MAXIMUM_SPEED_MS])⟩

/-- C5 (counterexample): on the sub-minimum-speed path the code returns at
line 163, before the bearing is computed, so `last_bearing` keeps its old
value 10° instead of being set to the bearing 90° from prev to curr as the
claim states. -/
theorem C5_counterexample :
    geoStill.haversine_distance_in_meter samplePrev sampleCurr <
      MINIMUM_SPEED_MS * (1000 / 1000) ∧
    (calculate_distance_traveled geoStill stBearing10 sampleCurr 1000).1.last_bearing
      = some 10 ∧
    some (10:ℚ) ≠ some (geoStill.bearing_between_points samplePrev sampleCurr) := by
  have hres := cdt_min_reject geoStill stBearing10 sampleCurr 1000 samplePrev rfl
    (by norm_num [geoStill, MINIMUM_SPEED_MS])
  refine ⟨by norm_num [geoStill, MINIMUM_SPEED_MS], ?_, by norm_num [geoStill]⟩
  rw [hres]
  rfl

/-- C5 (amended): a sample whose raw distance is below
`MINIMUM_SPEED_MS × dt/1000` is rejected: no distance is returned,
`is_continuous` becomes false, and `last_point` and `last_bearing` are left
unchanged (no bearing is computed or stored on this path). -/
theorem C5_min_speed_rejection (geo : Geodesy) (st : FilterState)
    (point : GpsPoint) (dt : ℚ) (prev : GpsPoint)
    (hlp : st.last_point = some prev)
    (hmin : geo.haversine_distance_in_meter prev point <
      MINIMUM_SPEED_MS * (dt / 1000)) :
    calculate_distance_traveled geo st point dt =
      ({ st with is_continuous := false }, none) :=
  cdt_min_reject geo st point dt prev hlp hmin

theorem C5_min_speed_rejection_witness :
    stBearing10.last_point = some samplePrev ∧
    geoStill.haversine_distance_in_meter samplePrev sampleCurr <
      MINIMUM_SPEED_MS * (1000 / 1000) ∧
    calculate_distance_traveled geoStill stBearing10 sampleCurr 1000 =
      ({ stBearing10 with is_continuous := false }, none) :=
  ⟨rfl, by norm_num [geoStill, MINIMUM_SPEED_MS],
    C5_min_speed_rejection geoStill stBearing10 sampleCurr 1000 samplePrev rfl
      (by norm_num [geoStill, MINIMUM_SPEED_MS])⟩

/-- C6: with a known previous bearing, a continuous sample of clamped
distance at least 1 m whose bearing differs by at least 45°
(shortest angular difference) is treated as discontinuous: no distance,
`is_continuous = false`, and `last_bearing` forgotten. -/
theorem C6_bearing_discontinuity (geo : Geodesy) (st : FilterState)
    (point : GpsPoint) (dt : ℚ) (prev : GpsPoint) (lb : ℚ)
    (hlp : st.last_point = some prev) (hlb : st.last_bearing = some lb)
    (hmin : MINIMUM_SPEED_MS * (dt / 1000) ≤
      geo.haversine_distance_in_meter prev point)
    (hcont : geo.haversine_distance_in_meter prev point ≤
      MAXIMUM_SPEED_MS * (dt / 1000))
    (hdist : BEARING_CHECK_MINIMUM_DISTANCE_M ≤
      min (geo.haversine_distance_in_meter prev point)
        (MAXIMUM_SPEED_MS * (dt / 1000)))
    (hdiff : BEARING_CHECK_THRESHOLD_DEGREES ≤
      bearingDiff (geo.bearing_between_points prev point) lb) :
    calculate_distance_traveled geo st point dt =
      ({ st with is_continuous := false, last_bearing := none }, none) :=
  cdt_discontinuous geo st point dt prev lb hlp (not_lt.mpr hmin) hlb
    ⟨hcont, hdist, hdiff⟩

theorem C6_bearing_discontinuity_witness :
    stBearing0.last_point = some samplePrev ∧
    stBearing0.last_bearing = some 0 ∧
    MINIMUM_SPEED_MS * (1000 / 1000) ≤
      geoTurn.haversine_distance_in_meter samplePrev sampleCurr ∧
    geoTurn.haversine_distance_in_meter samplePrev sampleCurr ≤
      MAXIMUM_SPEED_MS * (1000 / 1000) ∧
    BEARING_CHECK_MINIMUM_DISTANCE_M ≤
      min (geoTurn.haversine_distance_in_meter samplePrev sampleCurr)
        (MAXIMUM_SPEED_MS * (1000 / 1000)) ∧
    BEARING_CHECK_THRESHOLD_DEGREES ≤
      bearingDiff (geoTurn.bearing_between_points samplePrev sampleCurr) 0 ∧
    calculate_distance_traveled geoTurn stBearing0 sampleCurr 1000 =
      ({ stBearing0 with is_continuous := false, last_bearing := none }, none) :=
  ⟨rfl, rfl, by norm_num [geoTurn, MINIMUM_SPEED_MS],
    by norm_num [geoTurn, MAXIMUM_SPEED_MS],
    by norm_num [geoTurn, MAXIMUM_SPEED_MS, BEARING_CHECK_MINIMUM_DISTANCE_M],
    by
      rw [show geoTurn.bearing_between_points samplePrev sampleCurr =
        (180:ℚ) from rfl, bearingDiff_180_0]
      norm_num [BEARING_CHECK_THRESHOLD_DEGREES],
    C6_bearing_discontinuity geoTurn stBearing0 sampleCurr 1000 samplePrev 0
      rfl rfl (by norm_num [geoTurn, MINIMUM_SPEED_MS])
      (by norm_num [geoTurn, MAXIMUM_SPEED_MS])
      (by norm_num [geoTurn, MAXIMUM_SPEED_MS, BEARING_CHECK_MINIMUM_DISTANCE_M])
      (by
        rw [show geoTurn.bearing_between_points samplePrev sampleCurr =
          (180:ℚ) from rfl, bearingDiff_180_0]
        norm_num [BEARING_CHECK_THRESHOLD_DEGREES])⟩

/-- C7 (counterexample): with `dt = 0` the smoother computes
`alpha = 1 - exp(0) = 0`, so a prior EMA of 5 W with a raw sample of 10 W
stays 5 W — it is not reset to the raw sample.  The oracle `fun _ => 1`
agrees with the real `exp` at `-(0/3000) = 0`, the only point evaluated. -/
theorem C7_counterexample :
    (fun _ : ℚ => (1:ℚ)) (-(0 / POWER_EMA_MS)) = 1 ∧
    (calculate_energy_used (fun _ => 1) (some 5) 10 0).1 = 5 ∧ (5:ℚ) ≠ 10 := by
  refine ⟨rfl, ?_, by norm_num⟩
  norm_num [calculate_energy_used]

/-- C7 (amended): when `dt_ms = 0` and a prior `power_ema` exists, the EMA
is left unchanged (`alpha = 1 - exp(0) = 0`) and the returned energy
increment is 0; the instantaneous reset to the raw sample happens only when
no prior EMA exists. -/
theorem C7_dt_zero_ema_unchanged (rexp : ℚ → ℚ) (h : rexp 0 = 1) (x p : ℚ) :
    (calculate_energy_used rexp (some x) p 0).1 = x ∧
    (calculate_energy_used rexp (some x) p 0).2 = 0 := by
  unfold calculate_energy_used
  dsimp only
  rw [show -((0:ℚ) / POWER_EMA_MS) = (0:ℚ) by norm_num, h]
  constructor <;> ring

theorem C7_dt_zero_ema_unchanged_witness :
    ((fun _ : ℚ => (1:ℚ)) 0 = 1) ∧
    (calculate_energy_used (fun _ => 1) (some 7) 12 0).1 = 7 :=
  ⟨rfl, (C7_dt_zero_ema_unchanged (fun _ => 1) rfl 7 12).1⟩

/-- C8: a GPS update with any required input missing resets the continuity
chain (`last_point`, `last_bearing`, `power_ema` cleared,
`is_continuous = false`) and leaves the whole window — all segments, the
write index and both totals — untouched. -/
theorem C8_missing_input_reset (geo : Geodesy) (rexp : ℚ → ℚ)
    (st : MotorDriveState) (power : Option ℚ) (utc_time : Option ℤ)
    (latitude longitude : Option ℚ)
    (h : power = none ∨ utc_time = none ∨ latitude = none ∨ longitude = none) :
    on_gps_update geo rexp st power utc_time latitude longitude =
      { st with
        is_continuous := false
        last_point := none
        last_bearing := none
        power_ema := none } ∧
    (on_gps_update geo rexp st power utc_time latitude longitude).window =
      st.window := by
  have hmain : on_gps_update geo rexp st power utc_time latitude longitude =
      { st with
        is_continuous := false
        last_point := none
        last_bearing := none
        power_ema := none } := by
    cases power <;> cases utc_time <;> cases latitude <;> cases longitude <;>
      first
        | rfl
        | (rcases h with h | h | h | h <;> exact absurd h (by simp))
  refine ⟨hmain, ?_⟩
  rw [hmain]

theorem C8_missing_input_reset_witness :
    (none : Option ℚ) = none ∧
    on_gps_update geoTurn (fun _ => 1) sampleState none (some 0) (some 0) (some 0) =
      { sampleState with
        is_continuous := false
        last_point := none
        last_bearing := none
        power_ema := none } :=
  ⟨rfl, (C8_missing_input_reset geoTurn (fun _ => 1) sampleState none (some 0)
    (some 0) (some 0) (Or.inl rfl)).1⟩

end MotorDriveConsumption
